import Mathlib

/-!
Verification of the spandsp T.42 (JPEG for FAX) colour transform core.

Shallow embedding conventions:
* C `float` values are modelled as exact rationals (`ℚ`); the source's
  arithmetic expressions are transcribed literally over `ℚ`.
* C buffers of `uint8_t` are modelled as `List ℕ`, each cell holding a byte
  value; reads go through `List.getD` and byte-sized wraparound is written
  as an explicit `% 256`.
* C `int` parameters are modelled as `ℤ`.
* The external libjpeg codec is not part of the repository; a successfully
  decoded JPEG stream is abstracted as a `jpeg_image` record (captured
  marker chain, dimensions, decoded scanlines), which is exactly the data
  the bridge functions consume after `jpeg_read_header` and scanline reads.
* The lookup tables from cielab_luts.h are not in the repository sources;
  they enter the model as explicit function parameters, as does the libm
  cube-root routine.
-/

namespace T42

/-- Model of the `lab_params_t` structure (fields as used by t42.c):
per-channel quantization ranges and offsets, white point, and the
signed-a*/b* flag. -/
structure lab_params where
  range_L : ℚ
  range_a : ℚ
  range_b : ℚ
  offset_L : ℚ
  offset_a : ℚ
  offset_b : ℚ
  x_n : ℚ
  y_n : ℚ
  z_n : ℚ
  ab_are_signed : Bool
deriving DecidableEq, Repr

/-- Model of the `cielab_t` structure: a transient floating L/a/b triple. -/
structure cielab_t where
  L : ℚ
  a : ℚ
  b : ℚ
deriving DecidableEq, Repr

/-- Model of an `illuminant_t` catalog entry: a 5-byte tag (memcmp uses the
first 4 bytes), a name, and percentage-scale tristimulus values. -/
structure illuminant_t where
  tag : List ℕ
  name : String
  xn : ℚ
  yn : ℚ
  zn : ℚ
deriving DecidableEq, Repr

/-- pack_16: big-endian 16-bit read of two byte cells,
`((uint16_t) s[0] << 8) | (uint16_t) s[1]`.  The cells are `uint8_t`, so
each is reduced mod 256; on disjoint byte lanes the C bitwise-or is
addition. -/
def pack_16 (b0 b1 : ℕ) : ℕ :=
  (b0 % 256) * 256 + b1 % 256

/-- unpack_16 writes `(value >> 8) & 0xFF` and `value & 0xFF` into two
consecutive buffer cells starting at `pos`. -/
def unpack_16 (buf : List ℕ) (pos : ℕ) (value : ℕ) : List ℕ :=
  (buf.set pos ((value / 256) % 256)).set (pos + 1) (value % 256)

/-- The read-only illuminant catalog (the 18 real entries of
`illuminants[]`; the all-zero sentinel terminates the C scan loop and is
represented by the end of the list).  Tag strings with embedded NUL bytes
are transcribed byte-for-byte. -/
def illuminants : List illuminant_t :=
  [⟨[0, 68, 53, 48, 0], "CIE D50/2deg", 96.422, 100.000, 82.521⟩,
   ⟨[0, 0, 0, 0, 0], "CIE D50/10deg", 96.720, 100.000, 81.427⟩,
   ⟨[0, 0, 0, 0, 0], "CIE D55/2deg", 95.682, 100.000, 92.149⟩,
   ⟨[0, 0, 0, 0, 0], "CIE D55/10deg", 95.799, 100.000, 90.926⟩,
   ⟨[0, 68, 54, 53, 0], "CIE D65/2deg", 95.047, 100.000, 108.883⟩,
   ⟨[0, 0, 0, 0, 0], "CIE D65/10deg", 94.811, 100.000, 107.304⟩,
   ⟨[0, 68, 55, 53, 0], "CIE D75/2deg", 94.972, 100.000, 122.638⟩,
   ⟨[0, 0, 0, 0, 0], "CIE D75/10deg", 94.416, 100.000, 120.641⟩,
   ⟨[0, 0, 70, 50, 0], "F02/2deg", 99.186, 100.000, 67.393⟩,
   ⟨[0, 0, 0, 0, 0], "F02/10deg", 103.279, 100.000, 69.027⟩,
   ⟨[0, 0, 70, 55, 0], "F07/2deg", 95.041, 100.000, 108.747⟩,
   ⟨[0, 0, 0, 0, 0], "F07/10deg", 95.792, 100.000, 107.686⟩,
   ⟨[0, 70, 49, 49, 0], "F11/2deg", 100.962, 100.000, 64.350⟩,
   ⟨[0, 0, 0, 0, 0], "F11/10deg", 103.863, 100.000, 65.607⟩,
   ⟨[0, 0, 83, 65, 0], "A/2deg", 109.850, 100.000, 35.585⟩,
   ⟨[0, 0, 0, 0, 0], "A/10deg", 111.144, 100.000, 35.200⟩,
   ⟨[0, 0, 83, 67, 0], "C/2deg", 98.074, 100.000, 118.232⟩,
   ⟨[0, 0, 0, 0, 0], "C/10deg", 97.285, 100.000, 116.145⟩]

/-- set_lab_illuminant: stores the white point, auto-rescaling
percentage-scale inputs (yn > 10) by 1/100. -/
def set_lab_illuminant (s : lab_params) (new_xn new_yn new_zn : ℚ) : lab_params :=
  if new_yn > 10 then
    { s with x_n := new_xn / 100, y_n := new_yn / 100, z_n := new_zn / 100 }
  else
    { s with x_n := new_xn, y_n := new_yn, z_n := new_zn }

/-- set_lab_gamut: the three sequential mutation phases of the C body are
kept separate: ranges are set to max - min; offsets are computed from the
still-unshrunk ranges as -256*min/range; then the ranges are divided by
256 - 1 = 255; finally the signed flag is stored. -/
def set_lab_gamut (s : lab_params) (L_min L_max a_min a_max b_min b_max : ℤ)
    (ab_are_signed : Bool) : lab_params :=
  let s1 := { s with
    range_L := ((L_max : ℚ) - (L_min : ℚ)),
    range_a := ((a_max : ℚ) - (a_min : ℚ)),
    range_b := ((b_max : ℚ) - (b_min : ℚ)) }
  let s2 := { s1 with
    offset_L := -256 * (L_min : ℚ) / s1.range_L,
    offset_a := -256 * (a_min : ℚ) / s1.range_a,
    offset_b := -256 * (b_min : ℚ) / s1.range_b }
  let s3 := { s2 with
    range_L := s2.range_L / (256 - 1),
    range_a := s2.range_a / (256 - 1),
    range_b := s2.range_b / (256 - 1) }
  { s3 with ab_are_signed := ab_are_signed }

/-- set_lab_gamut2: P/Q form; ranges are Q/(256 - 1), offsets are P, and
the signed flag is forced to FALSE. -/
def set_lab_gamut2 (s : lab_params) (L_P L_Q a_P a_Q b_P b_Q : ℤ) : lab_params :=
  { s with
    range_L := (L_Q : ℚ) / (256 - 1),
    range_a := (a_Q : ℚ) / (256 - 1),
    range_b := (b_Q : ℚ) / (256 - 1),
    offset_L := (L_P : ℚ),
    offset_a := (a_P : ℚ),
    offset_b := (b_P : ℚ),
    ab_are_signed := false }

/-- The catalog scan of set_illuminant_from_code: first entry whose tag
matches the 4 code bytes (memcmp(code, tag, 4) == 0); the C loop runs over
exactly the entries with a non-empty name, i.e. all 18 real entries. -/
def illuminant_lookup (code : List ℕ) : Option illuminant_t :=
  illuminants.find? (fun e =>
    e.tag.take 4 = [code.getD 0 0, code.getD 1 0, code.getD 2 0, code.getD 3 0])

/-- set_illuminant_from_code: a code starting with the bytes of C,T is the
colour-temperature escape and only prints; otherwise the first catalog
match is applied through set_lab_illuminant; no match leaves the state
unchanged. -/
def set_illuminant_from_code (s : lab_params) (code : List ℕ) : lab_params :=
  if code.getD 0 0 = 67 ∧ code.getD 1 0 = 84 then
    s
  else
    match illuminant_lookup code with
    | some e => set_lab_illuminant s e.xn e.yn e.zn
    | none => s

/-- set_gamut_from_code: unpacks six big-endian 16-bit values from the
12-byte code and forwards them positionally to set_lab_gamut2. -/
def set_gamut_from_code (s : lab_params) (code : List ℕ) : lab_params :=
  set_lab_gamut2 s
    (pack_16 (code.getD 0 0) (code.getD 1 0))
    (pack_16 (code.getD 2 0) (code.getD 3 0))
    (pack_16 (code.getD 4 0) (code.getD 5 0))
    (pack_16 (code.getD 6 0) (code.getD 7 0))
    (pack_16 (code.getD 8 0) (code.getD 9 0))
    (pack_16 (code.getD 10 0) (code.getD 11 0))

/-- A concrete parameter state used to instantiate witnesses. -/
def lp0 : lab_params :=
  ⟨1, 1, 1, 0, 0, 0, 1, 1, 1, false⟩

/-- uint8_t subtraction: two's-complement wraparound modulo 256. -/
def sub8 (a b : ℕ) : ℕ :=
  (a % 256 + 256 - b % 256) % 256

/-- One quantized channel of lab_to_itu:
val = floorf(value/range + offset), then
(uint8_t) (val < 0.0) ? 0 : (val < 256.0) ? val : 255.
The cast binds to the comparison, so the ternary tests the 0/1 result of
val < 0.0; since that is nonzero exactly when val < 0, the selected value
is 0 for negative val, val itself (an exact integer below 256, unchanged
by the uint8_t store) in the middle band, and 255 otherwise. -/
def itu_quant (value range offset : ℚ) : ℕ :=
  let val : ℤ := ⌊value / range + offset⌋
  if val < 0 then 0 else if val < 256 then val.toNat else 255

/-- lab_to_itu: quantize an L/a/b triple to three byte codes; when
ab_are_signed is set the a and b bytes have 128 subtracted (uint8_t
wraparound) after quantization. -/
def lab_to_itu (s : lab_params) (lab : cielab_t) : List ℕ :=
  let out0 := itu_quant lab.L s.range_L s.offset_L
  let out1 := itu_quant lab.a s.range_a s.offset_a
  let out2 := itu_quant lab.b s.range_b s.offset_b
  if s.ab_are_signed then
    [out0, sub8 out1 128, sub8 out2 128]
  else
    [out0, out1, out2]

/-- itu_to_lab: undo the quantization; when ab_are_signed is set the a and
b input bytes have 128 added (uint8_t wraparound) before the linear map. -/
def itu_to_lab (s : lab_params) (in0 in1 in2 : ℕ) : cielab_t :=
  let a := if s.ab_are_signed then (in1 % 256 + 128) % 256 else in1 % 256
  let b := if s.ab_are_signed then (in2 % 256 + 128) % 256 else in2 % 256
  { L := s.range_L * ((in0 % 256 : ℕ) - s.offset_L),
    a := s.range_a * ((a : ℚ) - s.offset_a),
    b := s.range_b * ((b : ℚ) - s.offset_b) }

/-- C float-to-int conversion truncates toward zero. -/
def truncQ (q : ℚ) : ℤ :=
  if q < 0 then -⌊-q⌋ else ⌊q⌋

/-- The index clamp of the LUT path of lab_to_srgb:
(val < 0) ? 0 : (val < 4095) ? val : 4095. -/
def clamp4095 (v : ℤ) : ℕ :=
  if v < 0 then 0 else if v < 4095 then v.toNat else 4095

/-- One pixel of srgb_to_lab (the compiled T42_USE_LUTS path).
sRGB_to_linear is the 256-entry gamma LUT from cielab_luts.h (not among
the repository sources, so it is a parameter of the model), and cbrt is
the libm cube root. -/
def srgb_to_lab_pixel (cbrt : ℚ → ℚ) (sRGB_to_linear : ℕ → ℚ) (s : lab_params)
    (p0 p1 p2 : ℕ) : List ℕ :=
  let r := sRGB_to_linear (p0 % 256)
  let g := sRGB_to_linear (p1 % 256)
  let b := sRGB_to_linear (p2 % 256)
  let x := 0.4124 * r + 0.3576 * g + 0.1805 * b
  let y := 0.2126 * r + 0.7152 * g + 0.0722 * b
  let z := 0.0193 * r + 0.1192 * g + 0.9505 * b
  let x := x / s.x_n
  let y := y / s.y_n
  let z := z / s.z_n
  let xx := if x ≤ 0.008856 then 7.787 * x + 0.1379 else cbrt x
  let yy := if y ≤ 0.008856 then 7.787 * y + 0.1379 else cbrt y
  let zz := if z ≤ 0.008856 then 7.787 * z + 0.1379 else cbrt z
  lab_to_itu s ⟨116 * yy - 16, 500 * (xx - yy), 200 * (yy - zz)⟩

/-- One pixel of lab_to_srgb (the compiled T42_USE_LUTS path).
linear_to_sRGB is the 4096-entry LUT from cielab_luts.h (not among the
repository sources, so it is a parameter of the model). -/
def lab_to_srgb_pixel (linear_to_sRGB : ℕ → ℕ) (s : lab_params)
    (p0 p1 p2 : ℕ) : List ℕ :=
  let l := itu_to_lab s p0 p1 p2
  let ll := (1 / 116) * (l.L + 16)
  let y0 := ll
  let y := if y0 ≤ 0.2068 then 0.1284 * (y0 - 0.1379) else y0 * y0 * y0
  let x0 := ll + (1 / 500) * l.a
  let x := if x0 ≤ 0.2068 then 0.1284 * (x0 - 0.1379) else x0 * x0 * x0
  let z0 := ll - (1 / 200) * l.b
  let z := if z0 ≤ 0.2068 then 0.1284 * (z0 - 0.1379) else z0 * z0 * z0
  let x := x * s.x_n
  let y := y * s.y_n
  let z := z * s.z_n
  let r := 3.2406 * x - 1.5372 * y - 0.4986 * z
  let g := -0.9689 * x + 1.8758 * y + 0.0415 * z
  let b := 0.0557 * x - 0.2040 * y + 1.0570 * z
  [linear_to_sRGB (clamp4095 (truncQ (r * 4096))),
   linear_to_sRGB (clamp4095 (truncQ (g * 4096))),
   linear_to_sRGB (clamp4095 (truncQ (b * 4096)))]

/-- srgb_to_lab: the pixel loop runs for i = 0 .. pixels-1 (a non-positive
int count yields zero iterations); pixel i reads source bytes 3i..3i+2 and
writes destination bytes 3i..3i+2, leaving the rest of the destination
buffer untouched.  The function never stores through the lab_params
pointer, so the returned state is the argument state. -/
def srgb_to_lab (cbrt : ℚ → ℚ) (sRGB_to_linear : ℕ → ℚ) (s : lab_params)
    (lab srgb : List ℕ) (pixels : ℤ) : lab_params × List ℕ :=
  let n := pixels.toNat
  let written := (List.range n).flatMap (fun i =>
    srgb_to_lab_pixel cbrt sRGB_to_linear s
      (srgb.getD (3 * i) 0) (srgb.getD (3 * i + 1) 0) (srgb.getD (3 * i + 2) 0))
  (s, written ++ lab.drop (3 * n))

/-- lab_to_srgb: same loop shape as srgb_to_lab, in the decode direction. -/
def lab_to_srgb (linear_to_sRGB : ℕ → ℕ) (s : lab_params)
    (srgb lab : List ℕ) (pixels : ℤ) : lab_params × List ℕ :=
  let n := pixels.toNat
  let written := (List.range n).flatMap (fun i =>
    lab_to_srgb_pixel linear_to_sRGB s
      (lab.getD (3 * i) 0) (lab.getD (3 * i + 1) 0) (lab.getD (3 * i + 2) 0))
  (s, written ++ srgb.drop (3 * n))

/-- One saved JPEG marker segment as captured by jpeg_save_markers:
marker class byte and payload data. -/
structure jpeg_marker where
  marker : ℕ
  data : List ℕ
deriving DecidableEq, Repr

/-- The bytes of the string G3FAX. -/
def g3fax_tag : List ℕ := [71, 51, 70, 65, 88]

/-- The body of one iteration of the isITUfax scan loop: a segment is
examined when its class is JPEG_APP0 + 1 = 0xE1 and its payload holds at
least 6 bytes starting with G3FAX; sub-types 0, 1 and 2 set the result
flag (1 and 2 also feed the parameter store from the remaining payload),
sub-type 3 and unknown sub-types only print. -/
def isITUfax_step (s : lab_params) (m : jpeg_marker) : Bool × lab_params :=
  if m.marker = 225 ∧ m.data.length ≥ 6 ∧ m.data.take 5 = g3fax_tag then
    match m.data.getD 5 0 with
    | 0 => (true, s)
    | 1 => (true, set_gamut_from_code s (m.data.drop 6))
    | 2 => (true, set_illuminant_from_code s (m.data.drop 6))
    | _ => (false, s)
  else
    (false, s)

/-- isITUfax: walks the whole marker chain; the ok flag starts FALSE and
is only ever set (never cleared), so the result is true when any segment
of the chain set it. -/
def isITUfax (s : lab_params) : List jpeg_marker → Bool × lab_params
  | [] => (false, s)
  | m :: rest =>
    let r1 := isITUfax_step s m
    let r2 := isITUfax r1.2 rest
    (r1.1 || r2.1, r2.2)

/-- SetITUFax: the 10-byte marker payload; the initializer carries
G3FAX, sub-type 0, the bytes 0x07 0xCA, and two zero bytes, then
unpack_16(marker + 8, 200) overwrites the last two bytes with the
big-endian resolution 200. -/
def SetITUFax_marker : List ℕ :=
  unpack_16 [71, 51, 70, 65, 88, 0x00, 0x07, 0xCA, 0x00, 0x00] 8 200

/-- SetITUFax hands jpeg_write_marker the class JPEG_APP0 + 1 = 0xE1 and
the 10-byte payload. -/
def SetITUFax : ℕ × List ℕ :=
  (225, SetITUFax_marker)

/-- A successfully decoded JPEG source stream, as seen by the bridge
functions after the external codec has parsed the header (capturing the
APPn marker chain and the dimensions) and decoded the scanlines.  The
codec itself is outside the repository. -/
structure jpeg_image where
  markers : List jpeg_marker
  image_width : ℕ
  image_height : ℕ
  scanlines : List (List ℕ)

/-- t42_itulab_to_jpeg after a successful decode of the source stream:
when isITUfax fails the function stores the diagnostic and returns FALSE
before any scanline is read or transformed; otherwise every scanline is
passed through lab_to_srgb (into a freshly allocated output line of
3*width bytes) and handed to the encoder. -/
def t42_itulab_to_jpeg (linear_to_sRGB : ℕ → ℕ) (s : lab_params)
    (img : jpeg_image) : Except String (lab_params × List (List ℕ)) :=
  let r := isITUfax s img.markers
  if r.1 then
    Except.ok (r.2, img.scanlines.map (fun row =>
      (lab_to_srgb linear_to_sRGB r.2 (List.replicate (3 * img.image_width) 0)
        row (img.image_width : ℤ)).2))
  else
    Except.error "Is not ITUFAX."

/-- t42_itulab_to_srgb after a successful decode of the source stream:
when isITUfax fails the diagnostic is recorded but the return statement
is commented out, so processing continues; the result carries the status,
the diagnostic buffer, the reported width and height, the parameter state
after marker application, and the transformed scanlines. -/
def t42_itulab_to_srgb (linear_to_sRGB : ℕ → ℕ) (s : lab_params)
    (img : jpeg_image) : Bool × String × ℕ × ℕ × lab_params × List (List ℕ) :=
  let r := isITUfax s img.markers
  let emsg := if r.1 then "" else "Is not ITUFAX."
  (true, emsg, img.image_width, img.image_height, r.2,
    img.scanlines.map (fun row =>
      (lab_to_srgb linear_to_sRGB r.2 (List.replicate (3 * img.image_width) 0)
        row (img.image_width : ℤ)).2))

/-- Specification-side quantization, from the quantization rule the spec
states for the forward path: floor(value/range + offset), clamped to the
interval [0, 255]. -/
def spec_quant (value range offset : ℚ) : ℤ :=
  max 0 (min ⌊value / range + offset⌋ 255)

/-- A concrete decoded image with an empty marker chain, used to
instantiate witnesses. -/
def img0 : jpeg_image :=
  ⟨[], 1, 1, [[0, 0, 0]]⟩

lemma sub8_le (a b : ℕ) : sub8 a b ≤ 255 :=
  Nat.le_of_lt_succ (Nat.mod_lt _ (by norm_num))

lemma itu_quant_eq_spec_quant (v r o : ℚ) :
    itu_quant v r o = (spec_quant v r o).toNat ∧ itu_quant v r o ≤ 255 := by
  unfold itu_quant spec_quant
  dsimp only
  generalize ⌊v / r + o⌋ = z
  constructor
  · split_ifs <;> omega
  · split_ifs <;> omega

lemma isITUfax_step_fst (s : lab_params) (m : jpeg_marker) :
    (isITUfax_step s m).1 = true ↔
      m.marker = 225 ∧ m.data.length ≥ 6 ∧ m.data.take 5 = g3fax_tag ∧
        (m.data.getD 5 0 = 0 ∨ m.data.getD 5 0 = 1 ∨ m.data.getD 5 0 = 2) := by
  unfold isITUfax_step
  split
  · rename_i h
    rcases h with ⟨h1, h2, h3⟩
    simp only [h1, h2, h3, true_and, ge_iff_le, le_refl]
    generalize m.data.getD 5 0 = d
    match d with
    | 0 => simp
    | 1 => simp
    | 2 => simp
    | (n + 3) => simp
  · rename_i h
    simp only [Bool.false_eq_true, false_iff]
    intro hc
    exact h ⟨hc.1, hc.2.1, hc.2.2.1⟩

/-- Claim C4: isITUfax returns true if and only if the marker chain holds
at least one APP1 segment whose payload has length at least 6, starts with
G3FAX, and carries sub-type byte 0, 1 or 2; sub-type 3 and unknown
sub-types never make it true by themselves, and the scan covers the whole
chain. -/
theorem isITUfax_iff (s : lab_params) (chain : List jpeg_marker) :
    (isITUfax s chain).1 = true ↔
      ∃ m ∈ chain, m.marker = 225 ∧ m.data.length ≥ 6 ∧
        m.data.take 5 = g3fax_tag ∧
        (m.data.getD 5 0 = 0 ∨ m.data.getD 5 0 = 1 ∨ m.data.getD 5 0 = 2) := by
  induction chain generalizing s with
  | nil => simp [isITUfax]
  | cons m rest ih =>
    show ((isITUfax_step s m).1 || (isITUfax (isITUfax_step s m).2 rest).1) = true ↔ _
    rw [Bool.or_eq_true, isITUfax_step_fst, ih]
    constructor
    · intro h
      rcases h with h | ⟨m1, hm1, hp⟩
      · exact ⟨m, List.mem_cons_self m rest, h⟩
      · exact ⟨m1, List.mem_cons_of_mem m hm1, hp⟩
    · intro h
      rcases h with ⟨m1, hm1, hp⟩
      rcases List.mem_cons.mp hm1 with h1 | h1
      · exact Or.inl (h1 ▸ hp)
      · exact Or.inr ⟨m1, h1, hp⟩

/-- Claim C1: for non-zero ranges, lab_to_itu produces per channel the
code floor(value/range + offset) clamped to [0, 255] (the clamp alone
never wraps nor leaves [0, 255]), and when ab_are_signed is set the a and
b codes have 128 subtracted (as uint8_t bytes) after that quantization. -/
theorem lab_to_itu_correct (s : lab_params) (lab : cielab_t)
    (hL : s.range_L ≠ 0) (ha : s.range_a ≠ 0) (hb : s.range_b ≠ 0) :
    lab_to_itu s lab =
      (if s.ab_are_signed then
        [(spec_quant lab.L s.range_L s.offset_L).toNat,
         sub8 (spec_quant lab.a s.range_a s.offset_a).toNat 128,
         sub8 (spec_quant lab.b s.range_b s.offset_b).toNat 128]
      else
        [(spec_quant lab.L s.range_L s.offset_L).toNat,
         (spec_quant lab.a s.range_a s.offset_a).toNat,
         (spec_quant lab.b s.range_b s.offset_b).toNat]) ∧
    (∀ c ∈ lab_to_itu s lab, c ≤ 255) := by
  have h1 := itu_quant_eq_spec_quant lab.L s.range_L s.offset_L
  have h2 := itu_quant_eq_spec_quant lab.a s.range_a s.offset_a
  have h3 := itu_quant_eq_spec_quant lab.b s.range_b s.offset_b
  unfold lab_to_itu
  dsimp only
  constructor
  · split_ifs <;> simp [h1.1, h2.1, h3.1]
  · split_ifs <;> intro c hc <;>
      simp only [List.mem_cons, List.not_mem_nil, or_false] at hc
    · rcases hc with h | h | h
      · exact h ▸ h1.2
      · exact h ▸ sub8_le _ _
      · exact h ▸ sub8_le _ _
    · rcases hc with h | h | h
      · exact h ▸ h1.2
      · exact h ▸ h2.2
      · exact h ▸ h3.2

/-- Witness for lab_to_itu_correct at a concrete state and Lab triple. -/
theorem lab_to_itu_correct_witness :
    lp0.range_L ≠ 0 ∧ ∀ c ∈ lab_to_itu lp0 ⟨300, -10, 50⟩, c ≤ 255 :=
  ⟨by decide,
   (lab_to_itu_correct lp0 ⟨300, -10, 50⟩ (by decide) (by decide) (by decide)).2⟩

/-- Claim C2 counterexample: with bounds min = -100, max = 100 the stored
L offset is -256*min/(max-min) = 128, not -255*min/(max-min) = 127.5. -/
theorem set_lab_gamut_offset_counterexample :
    ¬ ((set_lab_gamut lp0 (-100) 100 (-100) 100 (-100) 100 true).offset_L
        = -255 * ((-100 : ℤ) : ℚ) / (((100 : ℤ) : ℚ) - ((-100 : ℤ) : ℚ))) := by
  simp only [set_lab_gamut]
  norm_num

/-- Claim C2 (amended): set_lab_gamut stores, per channel, the offset
-256*min/(max-min) (computed on the unshrunk range), the range
(max-min)/255, and the signed flag verbatim. -/
theorem set_lab_gamut_spec (s : lab_params)
    (L_min L_max a_min a_max b_min b_max : ℤ) (signed : Bool)
    (hL : L_max ≠ L_min) (ha : a_max ≠ a_min) (hb : b_max ≠ b_min) :
    (set_lab_gamut s L_min L_max a_min a_max b_min b_max signed).offset_L
      = -256 * (L_min : ℚ) / ((L_max : ℚ) - (L_min : ℚ)) ∧
    (set_lab_gamut s L_min L_max a_min a_max b_min b_max signed).range_L
      = ((L_max : ℚ) - (L_min : ℚ)) / 255 ∧
    (set_lab_gamut s L_min L_max a_min a_max b_min b_max signed).offset_a
      = -256 * (a_min : ℚ) / ((a_max : ℚ) - (a_min : ℚ)) ∧
    (set_lab_gamut s L_min L_max a_min a_max b_min b_max signed).range_a
      = ((a_max : ℚ) - (a_min : ℚ)) / 255 ∧
    (set_lab_gamut s L_min L_max a_min a_max b_min b_max signed).offset_b
      = -256 * (b_min : ℚ) / ((b_max : ℚ) - (b_min : ℚ)) ∧
    (set_lab_gamut s L_min L_max a_min a_max b_min b_max signed).range_b
      = ((b_max : ℚ) - (b_min : ℚ)) / 255 ∧
    (set_lab_gamut s L_min L_max a_min a_max b_min b_max signed).ab_are_signed
      = signed := by
  unfold set_lab_gamut
  norm_num

/-- Witness for set_lab_gamut_spec at concrete bounds. -/
theorem set_lab_gamut_spec_witness :
    (set_lab_gamut lp0 0 100 (-85) 85 (-75) 125 true).range_L = 100 / 255 ∧
    (set_lab_gamut lp0 0 100 (-85) 85 (-75) 125 true).ab_are_signed = true := by
  have h := set_lab_gamut_spec lp0 0 100 (-85) 85 (-75) 125 true
    (by decide) (by decide) (by decide)
  refine ⟨?_, h.2.2.2.2.2.2⟩
  rw [h.2.1]
  norm_num

/-- Claim C6: set_gamut_from_code unpacks six big-endian 16-bit fields
L_P, L_Q, a_P, a_Q, b_P, b_Q from the 12-byte code and forwards them to
set_lab_gamut2, so each stored range is Q/255, each stored offset is P,
and the signed flag is false. -/
theorem set_gamut_from_code_spec (s : lab_params)
    (b0 b1 b2 b3 b4 b5 b6 b7 b8 b9 b10 b11 : ℕ)
    (h0 : b0 < 256) (h1 : b1 < 256) (h2 : b2 < 256) (h3 : b3 < 256)
    (h4 : b4 < 256) (h5 : b5 < 256) (h6 : b6 < 256) (h7 : b7 < 256)
    (h8 : b8 < 256) (h9 : b9 < 256) (h10 : b10 < 256) (h11 : b11 < 256) :
    (set_gamut_from_code s [b0, b1, b2, b3, b4, b5, b6, b7, b8, b9, b10, b11]).range_L
      = ((256 * b2 + b3 : ℕ) : ℚ) / 255 ∧
    (set_gamut_from_code s [b0, b1, b2, b3, b4, b5, b6, b7, b8, b9, b10, b11]).range_a
      = ((256 * b6 + b7 : ℕ) : ℚ) / 255 ∧
    (set_gamut_from_code s [b0, b1, b2, b3, b4, b5, b6, b7, b8, b9, b10, b11]).range_b
      = ((256 * b10 + b11 : ℕ) : ℚ) / 255 ∧
    (set_gamut_from_code s [b0, b1, b2, b3, b4, b5, b6, b7, b8, b9, b10, b11]).offset_L
      = ((256 * b0 + b1 : ℕ) : ℚ) ∧
    (set_gamut_from_code s [b0, b1, b2, b3, b4, b5, b6, b7, b8, b9, b10, b11]).offset_a
      = ((256 * b4 + b5 : ℕ) : ℚ) ∧
    (set_gamut_from_code s [b0, b1, b2, b3, b4, b5, b6, b7, b8, b9, b10, b11]).offset_b
      = ((256 * b8 + b9 : ℕ) : ℚ) ∧
    (set_gamut_from_code s [b0, b1, b2, b3, b4, b5, b6, b7, b8, b9, b10, b11]).ab_are_signed
      = false := by
  have e : set_gamut_from_code s [b0, b1, b2, b3, b4, b5, b6, b7, b8, b9, b10, b11]
      = set_lab_gamut2 s (pack_16 b0 b1) (pack_16 b2 b3) (pack_16 b4 b5)
          (pack_16 b6 b7) (pack_16 b8 b9) (pack_16 b10 b11) := rfl
  rw [e]
  unfold set_lab_gamut2 pack_16
  rw [Nat.mod_eq_of_lt h0, Nat.mod_eq_of_lt h1, Nat.mod_eq_of_lt h2,
      Nat.mod_eq_of_lt h3, Nat.mod_eq_of_lt h4, Nat.mod_eq_of_lt h5,
      Nat.mod_eq_of_lt h6, Nat.mod_eq_of_lt h7, Nat.mod_eq_of_lt h8,
      Nat.mod_eq_of_lt h9, Nat.mod_eq_of_lt h10, Nat.mod_eq_of_lt h11]
  refine ⟨?_, ?_, ?_, ?_, ?_, ?_, rfl⟩ <;> push_cast <;> ring_nf

/-- Witness for set_gamut_from_code_spec at a concrete code. -/
theorem set_gamut_from_code_spec_witness :
    (set_gamut_from_code lp0 [0, 100, 1, 44, 0, 200, 0, 255, 128, 0, 2, 0]).range_L
      = ((256 * 1 + 44 : ℕ) : ℚ) / 255 ∧
    (set_gamut_from_code lp0 [0, 100, 1, 44, 0, 200, 0, 255, 128, 0, 2, 0]).range_a
      = ((256 * 0 + 255 : ℕ) : ℚ) / 255 ∧
    (set_gamut_from_code lp0 [0, 100, 1, 44, 0, 200, 0, 255, 128, 0, 2, 0]).range_b
      = ((256 * 2 + 0 : ℕ) : ℚ) / 255 ∧
    (set_gamut_from_code lp0 [0, 100, 1, 44, 0, 200, 0, 255, 128, 0, 2, 0]).offset_L
      = ((256 * 0 + 100 : ℕ) : ℚ) ∧
    (set_gamut_from_code lp0 [0, 100, 1, 44, 0, 200, 0, 255, 128, 0, 2, 0]).offset_a
      = ((256 * 0 + 200 : ℕ) : ℚ) ∧
    (set_gamut_from_code lp0 [0, 100, 1, 44, 0, 200, 0, 255, 128, 0, 2, 0]).offset_b
      = ((256 * 128 + 0 : ℕ) : ℚ) ∧
    (set_gamut_from_code lp0 [0, 100, 1, 44, 0, 200, 0, 255, 128, 0, 2, 0]).ab_are_signed
      = false :=
  set_gamut_from_code_spec lp0 0 100 1 44 0 200 0 255 128 0 2 0
    (by decide) (by decide) (by decide) (by decide) (by decide) (by decide)
    (by decide) (by decide) (by decide) (by decide) (by decide) (by decide)

/-- Claim C5 counterexample: the version field of the emitted marker
(bytes 6 and 7, big-endian) is 0x07CA = 1994, not 0. -/
theorem SetITUFax_version_counterexample :
    SetITUFax_marker ≠ [71, 51, 70, 65, 88, 0, 0, 0, 0, 200] ∧
    pack_16 (SetITUFax_marker.getD 6 0) (SetITUFax_marker.getD 7 0) = 1994 := by
  decide

/-- Claim C5 (amended): SetITUFax emits one APP1 marker whose 10-byte
payload is G, 3, F, A, X, sub-type 0, the big-endian version 1994
(0x07CA), and the big-endian resolution 200. -/
theorem SetITUFax_marker_spec :
    SetITUFax = (225, [71, 51, 70, 65, 88, 0, 7, 202, 0, 200]) ∧
    SetITUFax_marker.length = 10 ∧
    SetITUFax_marker.take 5 = g3fax_tag ∧
    SetITUFax_marker.getD 5 0 = 0 ∧
    pack_16 (SetITUFax_marker.getD 6 0) (SetITUFax_marker.getD 7 0) = 1994 ∧
    pack_16 (SetITUFax_marker.getD 8 0) (SetITUFax_marker.getD 9 0) = 200 := by
  decide

/-- Claim C8: the 4-byte D65 catalog tag (a NUL byte followed by D, 6, 5)
sets the white point to exactly (0.95047, 1.00000, 1.08883): the
tabulated percentage-scale D65 row divided by 100 through the yn > 10
rescale rule of set_lab_illuminant. -/
theorem set_illuminant_from_code_d65 (s : lab_params) :
    set_illuminant_from_code s [0, 68, 54, 53] =
      { s with x_n := 0.95047, y_n := 1, z_n := 1.08883 } := by
  simp only [set_illuminant_from_code, illuminant_lookup, illuminants]
  norm_num [List.find?, set_lab_illuminant]

/-- Claim C9: a code with the C, T colour-temperature prefix, and a code
matching no catalog entry, leave the parameter state unchanged. -/
theorem set_illuminant_from_code_no_change (s : lab_params) (code : List ℕ)
    (h : (code.getD 0 0 = 67 ∧ code.getD 1 0 = 84) ∨
         illuminant_lookup code = none) :
    set_illuminant_from_code s code = s := by
  unfold set_illuminant_from_code
  split
  · rfl
  · rename_i hc
    rcases h with h | h
    · exact absurd h hc
    · rw [h]

/-- Witness for set_illuminant_from_code_no_change: a colour-temperature
escape code and an unmatched code. -/
theorem set_illuminant_from_code_no_change_witness :
    set_illuminant_from_code lp0 [67, 84, 1, 44] = lp0 ∧
    set_illuminant_from_code lp0 [9, 9, 9, 9] = lp0 :=
  ⟨set_illuminant_from_code_no_change lp0 [67, 84, 1, 44] (Or.inl (by decide)),
   set_illuminant_from_code_no_change lp0 [9, 9, 9, 9] (Or.inr (by rfl))⟩

/-- Claim C7: when marker recognition fails, t42_itulab_to_jpeg returns
failure with the diagnostic and transforms no scanline, while
t42_itulab_to_srgb records the same diagnostic, keeps processing every
scanline, and still returns success. -/
theorem itulab_notitufax_asymmetry (lut : ℕ → ℕ) (s : lab_params)
    (img : jpeg_image) (h : (isITUfax s img.markers).1 = false) :
    t42_itulab_to_jpeg lut s img = Except.error "Is not ITUFAX." ∧
    (t42_itulab_to_srgb lut s img).1 = true ∧
    (t42_itulab_to_srgb lut s img).2.1 = "Is not ITUFAX." ∧
    (t42_itulab_to_srgb lut s img).2.2.2.2.2 =
      img.scanlines.map (fun row =>
        (lab_to_srgb lut (isITUfax s img.markers).2
          (List.replicate (3 * img.image_width) 0) row (img.image_width : ℤ)).2) := by
  unfold t42_itulab_to_jpeg t42_itulab_to_srgb
  simp [h]

/-- Witness for itulab_notitufax_asymmetry at a marker-free image. -/
theorem itulab_notitufax_asymmetry_witness :
    t42_itulab_to_jpeg (fun _ => 0) lp0 img0 = Except.error "Is not ITUFAX." ∧
    (t42_itulab_to_srgb (fun _ => 0) lp0 img0).1 = true ∧
    (t42_itulab_to_srgb (fun _ => 0) lp0 img0).2.1 = "Is not ITUFAX." := by
  have h := itulab_notitufax_asymmetry (fun _ => 0) lp0 img0 rfl
  exact ⟨h.1, h.2.1, h.2.2.1⟩

/-- Claim C10: with a non-positive pixel count, srgb_to_lab and
lab_to_srgb write nothing: the destination buffer and the parameter state
are returned unchanged. -/
theorem transform_zero_pixels (cbrt : ℚ → ℚ) (lutf : ℕ → ℚ) (luti : ℕ → ℕ)
    (s : lab_params) (dst src : List ℕ) (pixels : ℤ) (h : pixels ≤ 0) :
    srgb_to_lab cbrt lutf s dst src pixels = (s, dst) ∧
    lab_to_srgb luti s dst src pixels = (s, dst) := by
  have hn : pixels.toNat = 0 := Int.toNat_of_nonpos h
  constructor <;> simp [srgb_to_lab, lab_to_srgb, hn]

/-- Witness for transform_zero_pixels at a negative pixel count. -/
theorem transform_zero_pixels_witness :
    srgb_to_lab (fun q => q) (fun _ => 0) lp0 [9, 9, 9] [1, 2, 3] (-5)
      = (lp0, [9, 9, 9]) ∧
    lab_to_srgb (fun _ => 0) lp0 [9, 9, 9] [1, 2, 3] (-5)
      = (lp0, [9, 9, 9]) :=
  transform_zero_pixels (fun q => q) (fun _ => 0) (fun _ => 0) lp0
    [9, 9, 9] [1, 2, 3] (-5) (by decide)

end T42
